import Mathlib

/-!
Shallow embedding of the `pscontroller-rs` driver (`src/lib.rs`).

Bytes are modelled as `Nat` (the Rust code uses `u8`; every operation here
either keeps values below 256 or is paired with an explicit `< 256`
hypothesis where that matters).  Buffers (`[u8; 32]`, `&[u8]`, `&mut [u8]`)
are modelled as `List Nat`.  The SPI bus (`spi::Transfer`) is modelled as an
oracle function from the sent bytes to `Except ε` of the received bytes; in
the hardware the exchange overwrites the buffer in place, so the received
list always has the buffer's length — theorems carry that as a hypothesis
where it matters.  The chip-select pin (`OutputPin`) is modelled by the
trace of `set_low` / `set_high` calls a function performs.  A Rust panic
(out-of-bounds slice index) is modelled as a distinguished outcome.
-/

namespace Pscontroller

/-- The maximum length of a message from a controller (`MESSAGE_MAX_LENGTH`). -/
def MESSAGE_MAX_LENGTH : Nat := 32

/-- Acknowledgement byte for a header command (`ACK_BYTE`). -/
def ACK_BYTE : Nat := 0x5a

/-- Length of the command header (`HEADER_LEN`). -/
def HEADER_LEN : Nat := 3

/-- Controller missing (`CONTROLLER_NOT_PRESENT`). -/
def CONTROLLER_NOT_PRESENT : Nat := 0xff

/-- Original controller, SCPH-1080 (`CONTROLLER_CLASSIC`). -/
def CONTROLLER_CLASSIC : Nat := 0xc1

/-- DualShock in Digital mode (`CONTROLLER_DUALSHOCK_DIGITAL`). -/
def CONTROLLER_DUALSHOCK_DIGITAL : Nat := 0x41

/-- DualShock (`CONTROLLER_DUALSHOCK_ANALOG`). -/
def CONTROLLER_DUALSHOCK_ANALOG : Nat := 0x73

/-- DualShock 2 (`CONTROLLER_DUALSHOCK_PRESSURE`). -/
def CONTROLLER_DUALSHOCK_PRESSURE : Nat := 0x79

/-- Configuration mode (`CONTROLLER_CONFIGURATION`). -/
def CONTROLLER_CONFIGURATION : Nat := 0xf3

/-- Command to poll buttons (`CMD_POLL`). -/
def CMD_POLL : List Nat := [0x01, 0x42, 0x00]

/-- Command to enter escape mode (`CMD_ENTER_ESCAPE_MODE`). -/
def CMD_ENTER_ESCAPE_MODE : List Nat := [0x01, 0x43, 0x00, 0x01, 0x00]

/-- Command to exit escape mode (`CMD_EXIT_ESCAPE_MODE`). -/
def CMD_EXIT_ESCAPE_MODE : List Nat := [0x01, 0x43, 0x00, 0x00, 0x00]

/-- Command to set response format (`CMD_RESPONSE_FORMAT`). -/
def CMD_RESPONSE_FORMAT : List Nat := [0x01, 0x4F, 0x00, 0xFF, 0xFF, 0x03, 0x00, 0x00, 0x00]

/-- Command to initialize / customize pressure (`CMD_INIT_PRESSURE`). -/
def CMD_INIT_PRESSURE : List Nat := [0x01, 0x40, 0x00, 0x00, 0x02, 0x00, 0x00, 0x00, 0x00]

/-- Command to set major mode (`CMD_SET_MODE`). -/
def CMD_SET_MODE : List Nat := [0x01, 0x44, 0x00, 0x01, 0x00, 0x00, 0x00, 0x00, 0x00]

/-- Command to read extended status (`CMD_READ_STATUS`). -/
def CMD_READ_STATUS : List Nat := [0x01, 0x45, 0x00, 0x5a, 0x5a, 0x5a, 0x5a, 0x5a, 0x5a]

/-- Command to read constant 1 at address 00 (`CMD_READ_CONST1A`). -/
def CMD_READ_CONST1A : List Nat := [0x01, 0x46, 0x00, 0x00, 0x5a, 0x5a, 0x5a, 0x5a, 0x5a]

/-- Command to read constant 1 at address 01 (`CMD_READ_CONST1B`). -/
def CMD_READ_CONST1B : List Nat := [0x01, 0x46, 0x00, 0x01, 0x5a, 0x5a, 0x5a, 0x5a, 0x5a]

/-- Command to read constant 2 at address 00 (`CMD_READ_CONST2`). -/
def CMD_READ_CONST2 : List Nat := [0x01, 0x47, 0x00, 0x00, 0x5a, 0x5a, 0x5a, 0x5a, 0x5a]

/-- Command to read constant 3 at address 00 (`CMD_READ_CONST3A`). -/
def CMD_READ_CONST3A : List Nat := [0x01, 0x4C, 0x00, 0x00, 0x5a, 0x5a, 0x5a, 0x5a, 0x5a]

/-- Command to read constant 3 at address 01 (`CMD_READ_CONST3B`). -/
def CMD_READ_CONST3B : List Nat := [0x01, 0x4C, 0x00, 0x01, 0x5a, 0x5a, 0x5a, 0x5a, 0x5a]

/-- Modelled from the spec: the per-byte bit reversal `u8::swap_bits()` comes
from the external `bit_reverse` crate, which is not part of this repository;
the spec's contract for it is "replace each byte with its bit-reversed value
(bit 7 ↔ bit 0, bit 6 ↔ bit 1, etc.)". -/
def swap_bits (b : Nat) : Nat :=
  (if b.testBit 0 then 0x80 else 0) +
  (if b.testBit 1 then 0x40 else 0) +
  (if b.testBit 2 then 0x20 else 0) +
  (if b.testBit 3 then 0x10 else 0) +
  (if b.testBit 4 then 0x08 else 0) +
  (if b.testBit 5 then 0x04 else 0) +
  (if b.testBit 6 then 0x02 else 0) +
  (if b.testBit 7 then 0x01 else 0)

/-- `PlayStationPort::flip`: replace every byte of the buffer by its
bit-reversed value, in place (here: as a map over the list). -/
def flip (bytes : List Nat) : List Nat := bytes.map swap_bits

/-- One observable action on the chip-select output pin. -/
inductive PinEvent
  | low
  | high
  deriving DecidableEq, Repr

/-- Outcome of a Rust call that may panic (out-of-bounds slicing), fail with
an error value, or succeed. -/
inductive SpiOutcome (ε α : Type)
  | panicked
  | err (e : ε)
  | ok (a : α)
  deriving DecidableEq, Repr

/-- `result[0 .. command.len()].copy_from_slice(command)`: copy `command`
into the head of `result`, keeping the tail.  Indexing
`result[0 .. command.len()]` panics (`none`) when `command` is longer than
`result`; otherwise both slices have length `command.len()` and the copy
succeeds. -/
def copyFromSlice (command result : List Nat) : Option (List Nat) :=
  if command.length ≤ result.length then
    some (command ++ result.drop command.length)
  else
    none

/-- `PlayStationPort::send_command`: copy the command into the head of the
result buffer, flip the bits of the whole buffer, assert select low, perform
one duplex transfer, deassert select high, and flip the received bytes back.
The `?` on `self.dev.transfer(result)` returns before `set_high` runs, so on
the error path the recorded pin trace ends with `low`.  The first component
is the trace of pin events, the second the outcome (the flipped received
buffer on success). -/
def sendCommand (transfer : List Nat → Except ε (List Nat))
    (command result : List Nat) : List PinEvent × SpiOutcome ε (List Nat) :=
  match copyFromSlice command result with
  | none => ([], .panicked)
  | some buf =>
    match transfer (flip buf) with
    | .error e => ([.low], .err e)
    | .ok received => ([.low, .high], .ok (flip received))

/-- `PlayStationPort::new` calls `select.set_high()` once, before any
transaction: the pin trace of construction. -/
def new_select_trace : List PinEvent := [PinEvent.high]

/-- The digital buttons of the gamepad (`GamepadButtons`), a 16-bit
active-low bitfield. -/
structure GamepadButtons where
  data : Nat
  deriving DecidableEq, Repr

namespace GamepadButtons

/-- Bit mask for the Select button. -/
def PS_SELECT : Nat := 0x0001

/-- Bit mask for the L3 button. -/
def PS_L3 : Nat := 0x0002

/-- Bit mask for the R3 button. -/
def PS_R3 : Nat := 0x0004

/-- Bit mask for the Start button. -/
def PS_START : Nat := 0x0008

/-- Bit mask for the Up button. -/
def PS_UP : Nat := 0x0010

/-- Bit mask for the Right button. -/
def PS_RIGHT : Nat := 0x0020

/-- Bit mask for the Down button. -/
def PS_DOWN : Nat := 0x0040

/-- Bit mask for the Left button. -/
def PS_LEFT : Nat := 0x0080

/-- Bit mask for the L2 button. -/
def PS_L2 : Nat := 0x0100

/-- Bit mask for the R2 button. -/
def PS_R2 : Nat := 0x0200

/-- Bit mask for the L1 button. -/
def PS_L1 : Nat := 0x0400

/-- Bit mask for the R1 button. -/
def PS_R1 : Nat := 0x0800

/-- Bit mask for the Triangle button. -/
def PS_TRIANGLE : Nat := 0x1000

/-- Bit mask for the Circle button. -/
def PS_CIRCLE : Nat := 0x2000

/-- Bit mask for the Cross button. -/
def PS_CROSS : Nat := 0x4000

/-- Bit mask for the Square button. -/
def PS_SQUARE : Nat := 0x8000

/-- A button on the controller (active low). -/
def select (b : GamepadButtons) : Bool := b.data &&& PS_SELECT == 0

/-- A button on the controller (active low). -/
def l3 (b : GamepadButtons) : Bool := b.data &&& PS_L3 == 0

/-- A button on the controller (active low). -/
def r3 (b : GamepadButtons) : Bool := b.data &&& PS_R3 == 0

/-- A button on the controller (active low). -/
def start (b : GamepadButtons) : Bool := b.data &&& PS_START == 0

/-- A button on the controller (active low). -/
def up (b : GamepadButtons) : Bool := b.data &&& PS_UP == 0

/-- A button on the controller (active low). -/
def right (b : GamepadButtons) : Bool := b.data &&& PS_RIGHT == 0

/-- A button on the controller (active low). -/
def down (b : GamepadButtons) : Bool := b.data &&& PS_DOWN == 0

/-- A button on the controller (active low). -/
def left (b : GamepadButtons) : Bool := b.data &&& PS_LEFT == 0

/-- A button on the controller (active low). -/
def l2 (b : GamepadButtons) : Bool := b.data &&& PS_L2 == 0

/-- A button on the controller (active low). -/
def r2 (b : GamepadButtons) : Bool := b.data &&& PS_R2 == 0

/-- A button on the controller (active low). -/
def l1 (b : GamepadButtons) : Bool := b.data &&& PS_L1 == 0

/-- A button on the controller (active low). -/
def r1 (b : GamepadButtons) : Bool := b.data &&& PS_R1 == 0

/-- A button on the controller (active low). -/
def triangle (b : GamepadButtons) : Bool := b.data &&& PS_TRIANGLE == 0

/-- A button on the controller (active low). -/
def circle (b : GamepadButtons) : Bool := b.data &&& PS_CIRCLE == 0

/-- A button on the controller (active low). -/
def cross (b : GamepadButtons) : Bool := b.data &&& PS_CROSS == 0

/-- A button on the controller (active low). -/
def square (b : GamepadButtons) : Bool := b.data &&& PS_SQUARE == 0

/-- The raw value of the buttons on the controller. -/
def bits (b : GamepadButtons) : Nat := b.data

end GamepadButtons

/-- Errors that can arise from trying to communicate with the controller
(`Error<E>`). -/
inductive Error (E : Type)
  | LateCollision
  | BadResponse
  | Spi (e : E)
  deriving DecidableEq, Repr

/-- Represents the classic controller (`Classic`, `repr(C)`). -/
structure Classic where
  buttons : GamepadButtons
  deriving DecidableEq, Repr

/-- Represents the DualShock 1 controller (`DualShock`, `repr(C)`). -/
structure DualShock where
  buttons : GamepadButtons
  rx : Nat
  ry : Nat
  lx : Nat
  ly : Nat
  deriving DecidableEq, Repr

/-- Represents the DualShock 2 controller (`DualShock2`, `repr(C)`). -/
structure DualShock2 where
  buttons : GamepadButtons
  rx : Nat
  ry : Nat
  lx : Nat
  ly : Nat
  pressures : List Nat
  deriving DecidableEq, Repr

/-- Represents a Guitar Hero controller (`GuitarHero`, `repr(C)`). -/
structure GuitarHero where
  buttons : Nat
  padding : List Nat
  whammy : Nat
  deriving DecidableEq, Repr

/-- The `ControllerData` union overlays the typed controller structs on the
raw byte array `data: [u8; MESSAGE_MAX_LENGTH]`.  Reading a typed field of
the union reinterprets the bytes of `data` starting at offset 0, per the
`repr(C)` layout on the little-endian targets this `no_std` driver runs on:
a `u16` field takes two bytes, low byte first.  These functions give each
union field's value as a function of the raw bytes. -/
def byteAt (data : List Nat) (i : Nat) : Nat := data.getD i 0

namespace ControllerData

/-- The union's `classic: Classic` field: button word at bytes 0-1. -/
def classic (data : List Nat) : Classic :=
  ⟨⟨byteAt data 0 ||| byteAt data 1 <<< 8⟩⟩

/-- The union's `ds: DualShock` field: button word at bytes 0-1, then
`rx`, `ry`, `lx`, `ly` at bytes 2-5. -/
def ds (data : List Nat) : DualShock :=
  ⟨⟨byteAt data 0 ||| byteAt data 1 <<< 8⟩,
    byteAt data 2, byteAt data 3, byteAt data 4, byteAt data 5⟩

/-- The union's `ds2: DualShock2` field: like `ds`, then the eight
pressure bytes at bytes 6-13. -/
def ds2 (data : List Nat) : DualShock2 :=
  ⟨⟨byteAt data 0 ||| byteAt data 1 <<< 8⟩,
    byteAt data 2, byteAt data 3, byteAt data 4, byteAt data 5,
    (data.drop 6).take 8⟩

end ControllerData

/-- Possible devices that can be returned by the poll command (`Device`). -/
inductive Device
  | None
  | Unknown
  | ConfigurationMode
  | Classic (c : Classic)
  | DualShock (d : DualShock)
  | DualShock2 (d : DualShock2)
  | GuitarHero (g : GuitarHero)
  deriving DecidableEq, Repr

/-- The `match buffer[1]` block of `read_input`: pick the `Device` variant
from the tag byte; the typed payloads reinterpret the scratch `data` bytes
through the `ControllerData` union.  The literal patterns of the Rust match
are disjoint, so the chain of equality tests is the same function. -/
def classifyTag (tag : Nat) (data : List Nat) : Device :=
  if tag = CONTROLLER_NOT_PRESENT then Device.None
  else if tag = CONTROLLER_CONFIGURATION then Device.ConfigurationMode
  else if tag = CONTROLLER_CLASSIC then Device.Classic (ControllerData.classic data)
  else if tag = CONTROLLER_DUALSHOCK_DIGITAL then Device.Classic (ControllerData.classic data)
  else if tag = CONTROLLER_DUALSHOCK_ANALOG then Device.DualShock (ControllerData.ds data)
  else if tag = CONTROLLER_DUALSHOCK_PRESSURE then Device.DualShock2 (ControllerData.ds2 data)
  else Device.Unknown

/-- `PlayStationPort::read_input`: send the poll command into a fresh
32-byte buffer, copy the whole buffer into `data`
(`data.copy_from_slice(&buffer)` — header bytes included, since both arrays
have length `MESSAGE_MAX_LENGTH`), classify on `buffer[1]`, then unless the
device is `None` require `buffer[2] == ACK_BYTE`.  A transfer error is
wrapped as `Error::Spi` by the `From<E>` impl behind `?`. -/
def read_input (transfer : List Nat → Except ε (List Nat)) :
    SpiOutcome (Error ε) Device :=
  match sendCommand transfer CMD_POLL (List.replicate MESSAGE_MAX_LENGTH 0) with
  | (_, .panicked) => .panicked
  | (_, .err e) => .err (Error.Spi e)
  | (_, .ok buffer) =>
    let data := buffer
    let device := classifyTag (byteAt buffer 1) data
    match device with
    | Device.None => .ok device
    | _ =>
      if byteAt buffer 2 ≠ ACK_BYTE then .err Error.BadResponse
      else .ok device

/-- Holds information about the controller's configuration and constants
(`ControllerConfiguration`). -/
structure ControllerConfiguration where
  status : List Nat
  const1a : List Nat
  const1b : List Nat
  const2 : List Nat
  const3a : List Nat
  const3b : List Nat
  deriving DecidableEq, Repr

/-- `Default::default()` for `ControllerConfiguration`: all-zero blocks. -/
def ControllerConfiguration.default : ControllerConfiguration :=
  ⟨List.replicate 6 0, List.replicate 5 0, List.replicate 5 0,
    List.replicate 5 0, List.replicate 5 0, List.replicate 5 0⟩

/-- `PlayStationPort::enable_pressure`: six `send_command` calls in
sequence, each `?`-propagating the first bus error, sharing one scratch
buffer.  `rs i` is the bus oracle for the i-th transfer.  The first
component is the list of commands issued, in order. -/
def enable_pressure (rs : Nat → List Nat → Except ε (List Nat)) :
    List (List Nat) × SpiOutcome ε Unit :=
  let buffer := List.replicate MESSAGE_MAX_LENGTH 0
  match sendCommand (rs 0) CMD_POLL buffer with
  | (_, .panicked) => ([CMD_POLL], .panicked)
  | (_, .err e) => ([CMD_POLL], .err e)
  | (_, .ok b0) =>
  match sendCommand (rs 1) CMD_ENTER_ESCAPE_MODE b0 with
  | (_, .panicked) => ([CMD_POLL, CMD_ENTER_ESCAPE_MODE], .panicked)
  | (_, .err e) => ([CMD_POLL, CMD_ENTER_ESCAPE_MODE], .err e)
  | (_, .ok b1) =>
  match sendCommand (rs 2) CMD_SET_MODE b1 with
  | (_, .panicked) => ([CMD_POLL, CMD_ENTER_ESCAPE_MODE, CMD_SET_MODE], .panicked)
  | (_, .err e) => ([CMD_POLL, CMD_ENTER_ESCAPE_MODE, CMD_SET_MODE], .err e)
  | (_, .ok b2) =>
  match sendCommand (rs 3) CMD_INIT_PRESSURE b2 with
  | (_, .panicked) =>
    ([CMD_POLL, CMD_ENTER_ESCAPE_MODE, CMD_SET_MODE, CMD_INIT_PRESSURE], .panicked)
  | (_, .err e) =>
    ([CMD_POLL, CMD_ENTER_ESCAPE_MODE, CMD_SET_MODE, CMD_INIT_PRESSURE], .err e)
  | (_, .ok b3) =>
  match sendCommand (rs 4) CMD_RESPONSE_FORMAT b3 with
  | (_, .panicked) =>
    ([CMD_POLL, CMD_ENTER_ESCAPE_MODE, CMD_SET_MODE, CMD_INIT_PRESSURE,
      CMD_RESPONSE_FORMAT], .panicked)
  | (_, .err e) =>
    ([CMD_POLL, CMD_ENTER_ESCAPE_MODE, CMD_SET_MODE, CMD_INIT_PRESSURE,
      CMD_RESPONSE_FORMAT], .err e)
  | (_, .ok b4) =>
  match sendCommand (rs 5) CMD_EXIT_ESCAPE_MODE b4 with
  | (_, .panicked) =>
    ([CMD_POLL, CMD_ENTER_ESCAPE_MODE, CMD_SET_MODE, CMD_INIT_PRESSURE,
      CMD_RESPONSE_FORMAT, CMD_EXIT_ESCAPE_MODE], .panicked)
  | (_, .err e) =>
    ([CMD_POLL, CMD_ENTER_ESCAPE_MODE, CMD_SET_MODE, CMD_INIT_PRESSURE,
      CMD_RESPONSE_FORMAT, CMD_EXIT_ESCAPE_MODE], .err e)
  | (_, .ok _) =>
    ([CMD_POLL, CMD_ENTER_ESCAPE_MODE, CMD_SET_MODE, CMD_INIT_PRESSURE,
      CMD_RESPONSE_FORMAT, CMD_EXIT_ESCAPE_MODE], .ok ())

/-- `PlayStationPort::read_config`: bracket six reads between
enter-escape-mode and exit-escape-mode, capturing fixed byte ranges of each
response into the configuration record: `buffer[HEADER_LEN..9]` (six bytes)
for the status block after the read-status command, `buffer[4..9]` (five
bytes) for each constant block.  `rs i` is the bus oracle for the i-th
transfer; the first component is the list of commands issued, in order. -/
def read_config (rs : Nat → List Nat → Except ε (List Nat)) :
    List (List Nat) × SpiOutcome ε ControllerConfiguration :=
  let config := ControllerConfiguration.default
  let buffer := List.replicate MESSAGE_MAX_LENGTH 0
  match sendCommand (rs 0) CMD_ENTER_ESCAPE_MODE buffer with
  | (_, .panicked) => ([CMD_ENTER_ESCAPE_MODE], .panicked)
  | (_, .err e) => ([CMD_ENTER_ESCAPE_MODE], .err e)
  | (_, .ok b0) =>
  match sendCommand (rs 1) CMD_READ_STATUS b0 with
  | (_, .panicked) => ([CMD_ENTER_ESCAPE_MODE, CMD_READ_STATUS], .panicked)
  | (_, .err e) => ([CMD_ENTER_ESCAPE_MODE, CMD_READ_STATUS], .err e)
  | (_, .ok b1) =>
  let config := { config with status := (b1.drop HEADER_LEN).take 6 }
  match sendCommand (rs 2) CMD_READ_CONST1A b1 with
  | (_, .panicked) =>
    ([CMD_ENTER_ESCAPE_MODE, CMD_READ_STATUS, CMD_READ_CONST1A], .panicked)
  | (_, .err e) =>
    ([CMD_ENTER_ESCAPE_MODE, CMD_READ_STATUS, CMD_READ_CONST1A], .err e)
  | (_, .ok b2) =>
  let config := { config with const1a := (b2.drop 4).take 5 }
  match sendCommand (rs 3) CMD_READ_CONST1B b2 with
  | (_, .panicked) =>
    ([CMD_ENTER_ESCAPE_MODE, CMD_READ_STATUS, CMD_READ_CONST1A,
      CMD_READ_CONST1B], .panicked)
  | (_, .err e) =>
    ([CMD_ENTER_ESCAPE_MODE, CMD_READ_STATUS, CMD_READ_CONST1A,
      CMD_READ_CONST1B], .err e)
  | (_, .ok b3) =>
  let config := { config with const1b := (b3.drop 4).take 5 }
  match sendCommand (rs 4) CMD_READ_CONST2 b3 with
  | (_, .panicked) =>
    ([CMD_ENTER_ESCAPE_MODE, CMD_READ_STATUS, CMD_READ_CONST1A,
      CMD_READ_CONST1B, CMD_READ_CONST2], .panicked)
  | (_, .err e) =>
    ([CMD_ENTER_ESCAPE_MODE, CMD_READ_STATUS, CMD_READ_CONST1A,
      CMD_READ_CONST1B, CMD_READ_CONST2], .err e)
  | (_, .ok b4) =>
  let config := { config with const2 := (b4.drop 4).take 5 }
  match sendCommand (rs 5) CMD_READ_CONST3A b4 with
  | (_, .panicked) =>
    ([CMD_ENTER_ESCAPE_MODE, CMD_READ_STATUS, CMD_READ_CONST1A,
      CMD_READ_CONST1B, CMD_READ_CONST2, CMD_READ_CONST3A], .panicked)
  | (_, .err e) =>
    ([CMD_ENTER_ESCAPE_MODE, CMD_READ_STATUS, CMD_READ_CONST1A,
      CMD_READ_CONST1B, CMD_READ_CONST2, CMD_READ_CONST3A], .err e)
  | (_, .ok b5) =>
  let config := { config with const3a := (b5.drop 4).take 5 }
  match sendCommand (rs 6) CMD_READ_CONST3B b5 with
  | (_, .panicked) =>
    ([CMD_ENTER_ESCAPE_MODE, CMD_READ_STATUS, CMD_READ_CONST1A,
      CMD_READ_CONST1B, CMD_READ_CONST2, CMD_READ_CONST3A,
      CMD_READ_CONST3B], .panicked)
  | (_, .err e) =>
    ([CMD_ENTER_ESCAPE_MODE, CMD_READ_STATUS, CMD_READ_CONST1A,
      CMD_READ_CONST1B, CMD_READ_CONST2, CMD_READ_CONST3A,
      CMD_READ_CONST3B], .err e)
  | (_, .ok b6) =>
  let config := { config with const3b := (b6.drop 4).take 5 }
  match sendCommand (rs 7) CMD_EXIT_ESCAPE_MODE b6 with
  | (_, .panicked) =>
    ([CMD_ENTER_ESCAPE_MODE, CMD_READ_STATUS, CMD_READ_CONST1A,
      CMD_READ_CONST1B, CMD_READ_CONST2, CMD_READ_CONST3A,
      CMD_READ_CONST3B, CMD_EXIT_ESCAPE_MODE], .panicked)
  | (_, .err e) =>
    ([CMD_ENTER_ESCAPE_MODE, CMD_READ_STATUS, CMD_READ_CONST1A,
      CMD_READ_CONST1B, CMD_READ_CONST2, CMD_READ_CONST3A,
      CMD_READ_CONST3B, CMD_EXIT_ESCAPE_MODE], .err e)
  | (_, .ok _) =>
    ([CMD_ENTER_ESCAPE_MODE, CMD_READ_STATUS, CMD_READ_CONST1A,
      CMD_READ_CONST1B, CMD_READ_CONST2, CMD_READ_CONST3A,
      CMD_READ_CONST3B, CMD_EXIT_ESCAPE_MODE], .ok config)

/-! ### Helper lemmas -/

set_option maxRecDepth 4096 in
/-- The bit reversal round-trips on every byte value, checked exhaustively. -/
lemma swap_bits_swap_bits_fin : ∀ b : Fin 256, swap_bits (swap_bits b.val) = b.val := by
  decide

/-- The bit reversal round-trips on every value below 256. -/
lemma swap_bits_roundtrip (b : Nat) (hb : b < 256) : swap_bits (swap_bits b) = b :=
  swap_bits_swap_bits_fin ⟨b, hb⟩

/-- `flip` keeps the buffer length. -/
lemma flip_length (l : List Nat) : (flip l).length = l.length :=
  List.length_map _ _

/-- `flip` round-trips on buffers of bytes. -/
lemma flip_flip (l : List Nat) (hl : ∀ b ∈ l, b < 256) : flip (flip l) = l := by
  induction l with
  | nil => rfl
  | cons a t ih =>
    have ha : a < 256 := hl a (List.mem_cons_self a t)
    have ht : ∀ b ∈ t, b < 256 := fun b hb => hl b (List.mem_cons_of_mem a hb)
    simp only [flip, List.map_cons] at *
    exact congrArg₂ List.cons (swap_bits_roundtrip a ha) (ih ht)

/-- A masked test against a power of two reads a single bit. -/
lemma and_mask_beq_zero (d i : Nat) :
    ((d &&& 2 ^ i == 0) = true) ↔ d.testBit i = false := by
  rw [beq_iff_eq, Nat.and_two_pow]
  rcases h : d.testBit i <;> simp [h]

/-- `send_command` against a bus that answers `flip r`: the select trace is
low-then-high and the returned buffer is `r`. -/
lemma sendCommand_const_ok {ε : Type} (r : List Nat) (hr : ∀ b ∈ r, b < 256)
    (command result : List Nat) (h : command.length ≤ result.length) :
    sendCommand (fun _ => (Except.ok (flip r) : Except ε (List Nat))) command result
      = ([PinEvent.low, PinEvent.high], SpiOutcome.ok r) := by
  unfold sendCommand copyFromSlice
  rw [if_pos h]
  simp only []
  rw [flip_flip r hr]

/-- `send_command` against a failing bus: the select trace stops at `low`
and the error is propagated unchanged. -/
lemma sendCommand_const_err {ε : Type} (e : ε)
    (command result : List Nat) (h : command.length ≤ result.length) :
    sendCommand (fun _ => (Except.error e : Except ε (List Nat))) command result
      = ([PinEvent.low], SpiOutcome.err e) := by
  unfold sendCommand copyFromSlice
  rw [if_pos h]

/-- A tag other than `CONTROLLER_NOT_PRESENT` never classifies as
`Device.None`. -/
lemma classifyTag_ne_none (tag : Nat) (data : List Nat)
    (h : tag ≠ CONTROLLER_NOT_PRESENT) : classifyTag tag data ≠ Device.None := by
  unfold classifyTag
  split_ifs <;> simp_all

/-- `read_input` against a bus that answers `flip r` reaches the
classification step with buffer `r`. -/
lemma read_input_const_ok (r : List Nat) (hr : ∀ b ∈ r, b < 256) :
    read_input (fun _ => (Except.ok (flip r) : Except Nat (List Nat)))
      = (match classifyTag (byteAt r 1) r with
         | Device.None => SpiOutcome.ok (classifyTag (byteAt r 1) r)
         | _ =>
           if byteAt r 2 ≠ ACK_BYTE then SpiOutcome.err Error.BadResponse
           else SpiOutcome.ok (classifyTag (byteAt r 1) r)) := by
  unfold read_input
  rw [sendCommand_const_ok r hr CMD_POLL _ (by decide)]

/-- For a present device, `read_input` reduces to the acknowledge check. -/
lemma read_input_classified (r : List Nat) (hr : ∀ b ∈ r, b < 256)
    (hd : byteAt r 1 ≠ CONTROLLER_NOT_PRESENT) :
    read_input (fun _ => (Except.ok (flip r) : Except Nat (List Nat)))
      = (if byteAt r 2 ≠ ACK_BYTE then SpiOutcome.err Error.BadResponse
         else SpiOutcome.ok (classifyTag (byteAt r 1) r)) := by
  rw [read_input_const_ok r hr]
  cases hcl : classifyTag (byteAt r 1) r
  case None => exact absurd hcl (classifyTag_ne_none _ _ hd)
  all_goals rfl

/-- For a present device with a good acknowledge byte, `read_input` returns
the classified device. -/
lemma read_input_acked (r : List Nat) (hr : ∀ b ∈ r, b < 256)
    (hd : byteAt r 1 ≠ CONTROLLER_NOT_PRESENT) (hack : byteAt r 2 = ACK_BYTE) :
    read_input (fun _ => (Except.ok (flip r) : Except Nat (List Nat)))
      = SpiOutcome.ok (classifyTag (byteAt r 1) r) := by
  rw [read_input_classified r hr hd, if_neg (by simp [hack])]

/-! ### Claim theorems -/

/-- C8: the bit-order adapter is an involution: reversing a byte's bit order
twice yields the byte back, and applying `flip` twice to any buffer of bytes
restores the buffer while `flip` leaves the length unchanged. -/
theorem flip_involution :
    (∀ b : Nat, b < 256 → swap_bits (swap_bits b) = b) ∧
    (∀ l : List Nat, (∀ b ∈ l, b < 256) →
      flip (flip l) = l ∧ (flip l).length = l.length) :=
  ⟨swap_bits_roundtrip, fun l hl => ⟨flip_flip l hl, flip_length l⟩⟩

/-- Witness for C8 at concrete inputs. -/
theorem flip_involution_witness :
    swap_bits (swap_bits 0xb7) = 0xb7 ∧
    flip (flip [0x01, 0x80, 0xff, 0x00]) = [0x01, 0x80, 0xff, 0x00] ∧
    (flip [0x01, 0x80, 0xff, 0x00]).length = 4 :=
  ⟨flip_involution.1 0xb7 (by decide),
   (flip_involution.2 [0x01, 0x80, 0xff, 0x00] (by decide)).1,
   (flip_involution.2 [0x01, 0x80, 0xff, 0x00] (by decide)).2⟩

/-- C9: each of the sixteen named button accessors returns `true` exactly
when its fixed bit of the 16-bit field is zero (active low), `bits` returns
the raw field unchanged, and on the payload
`[0xfe, 0x7f, 0x00, 0x00, 0x00, 0xff]` viewed as a dual-analog payload,
`select` and `square` are pressed, every other named button is not, `lx`
reads 0 and `ly` reads 255. -/
theorem gamepad_buttons_active_low :
    (∀ d : Nat,
      (GamepadButtons.select ⟨d⟩ = true ↔ d.testBit 0 = false) ∧
      (GamepadButtons.l3 ⟨d⟩ = true ↔ d.testBit 1 = false) ∧
      (GamepadButtons.r3 ⟨d⟩ = true ↔ d.testBit 2 = false) ∧
      (GamepadButtons.start ⟨d⟩ = true ↔ d.testBit 3 = false) ∧
      (GamepadButtons.up ⟨d⟩ = true ↔ d.testBit 4 = false) ∧
      (GamepadButtons.right ⟨d⟩ = true ↔ d.testBit 5 = false) ∧
      (GamepadButtons.down ⟨d⟩ = true ↔ d.testBit 6 = false) ∧
      (GamepadButtons.left ⟨d⟩ = true ↔ d.testBit 7 = false) ∧
      (GamepadButtons.l2 ⟨d⟩ = true ↔ d.testBit 8 = false) ∧
      (GamepadButtons.r2 ⟨d⟩ = true ↔ d.testBit 9 = false) ∧
      (GamepadButtons.l1 ⟨d⟩ = true ↔ d.testBit 10 = false) ∧
      (GamepadButtons.r1 ⟨d⟩ = true ↔ d.testBit 11 = false) ∧
      (GamepadButtons.triangle ⟨d⟩ = true ↔ d.testBit 12 = false) ∧
      (GamepadButtons.circle ⟨d⟩ = true ↔ d.testBit 13 = false) ∧
      (GamepadButtons.cross ⟨d⟩ = true ↔ d.testBit 14 = false) ∧
      (GamepadButtons.square ⟨d⟩ = true ↔ d.testBit 15 = false) ∧
      GamepadButtons.bits ⟨d⟩ = d) ∧
    ((ControllerData.ds [0xfe, 0x7f, 0x00, 0x00, 0x00, 0xff]).buttons.select = true ∧
     (ControllerData.ds [0xfe, 0x7f, 0x00, 0x00, 0x00, 0xff]).buttons.square = true ∧
     (ControllerData.ds [0xfe, 0x7f, 0x00, 0x00, 0x00, 0xff]).buttons.l3 = false ∧
     (ControllerData.ds [0xfe, 0x7f, 0x00, 0x00, 0x00, 0xff]).buttons.r3 = false ∧
     (ControllerData.ds [0xfe, 0x7f, 0x00, 0x00, 0x00, 0xff]).buttons.start = false ∧
     (ControllerData.ds [0xfe, 0x7f, 0x00, 0x00, 0x00, 0xff]).buttons.up = false ∧
     (ControllerData.ds [0xfe, 0x7f, 0x00, 0x00, 0x00, 0xff]).buttons.right = false ∧
     (ControllerData.ds [0xfe, 0x7f, 0x00, 0x00, 0x00, 0xff]).buttons.down = false ∧
     (ControllerData.ds [0xfe, 0x7f, 0x00, 0x00, 0x00, 0xff]).buttons.left = false ∧
     (ControllerData.ds [0xfe, 0x7f, 0x00, 0x00, 0x00, 0xff]).buttons.l2 = false ∧
     (ControllerData.ds [0xfe, 0x7f, 0x00, 0x00, 0x00, 0xff]).buttons.r2 = false ∧
     (ControllerData.ds [0xfe, 0x7f, 0x00, 0x00, 0x00, 0xff]).buttons.l1 = false ∧
     (ControllerData.ds [0xfe, 0x7f, 0x00, 0x00, 0x00, 0xff]).buttons.r1 = false ∧
     (ControllerData.ds [0xfe, 0x7f, 0x00, 0x00, 0x00, 0xff]).buttons.triangle = false ∧
     (ControllerData.ds [0xfe, 0x7f, 0x00, 0x00, 0x00, 0xff]).buttons.circle = false ∧
     (ControllerData.ds [0xfe, 0x7f, 0x00, 0x00, 0x00, 0xff]).buttons.cross = false ∧
     (ControllerData.ds [0xfe, 0x7f, 0x00, 0x00, 0x00, 0xff]).lx = 0 ∧
     (ControllerData.ds [0xfe, 0x7f, 0x00, 0x00, 0x00, 0xff]).ly = 255) := by
  constructor
  · intro d
    exact ⟨and_mask_beq_zero d 0, and_mask_beq_zero d 1, and_mask_beq_zero d 2,
      and_mask_beq_zero d 3, and_mask_beq_zero d 4, and_mask_beq_zero d 5,
      and_mask_beq_zero d 6, and_mask_beq_zero d 7, and_mask_beq_zero d 8,
      and_mask_beq_zero d 9, and_mask_beq_zero d 10, and_mask_beq_zero d 11,
      and_mask_beq_zero d 12, and_mask_beq_zero d 13, and_mask_beq_zero d 14,
      and_mask_beq_zero d 15, rfl⟩
  · decide

/-- C10: `send_command` does not check its length precondition at runtime:
when the command is longer than the result buffer, the initial copy is out
of bounds and the call panics with the select line untouched (empty pin
trace); under the precondition the copy succeeds and the panic outcome is
unreachable. -/
theorem send_command_bounds_check (ε : Type)
    (transfer : List Nat → Except ε (List Nat)) (command result : List Nat) :
    (result.length < command.length →
      sendCommand transfer command result = ([], SpiOutcome.panicked)) ∧
    (command.length ≤ result.length →
      copyFromSlice command result = some (command ++ result.drop command.length) ∧
      (sendCommand transfer command result).2 ≠ SpiOutcome.panicked) := by
  constructor
  · intro h
    unfold sendCommand copyFromSlice
    rw [if_neg (by omega)]
  · intro h
    refine ⟨by unfold copyFromSlice; rw [if_pos h], ?_⟩
    unfold sendCommand copyFromSlice
    rw [if_pos h]
    rcases htr : transfer (flip (command ++ result.drop command.length)) with e | received <;>
      simp [htr]

/-- Witness for C10: a 4-byte command into a 2-byte buffer panics with no
pin event, while the poll command into the 32-byte buffer cannot panic. -/
theorem send_command_bounds_check_witness :
    sendCommand (fun _ => (Except.ok [] : Except Nat (List Nat)))
        [1, 2, 3, 4] [0, 0] = ([], SpiOutcome.panicked) ∧
    (sendCommand (fun _ => (Except.ok [] : Except Nat (List Nat)))
        CMD_POLL (List.replicate MESSAGE_MAX_LENGTH 0)).2 ≠ SpiOutcome.panicked :=
  ⟨(send_command_bounds_check Nat _ [1, 2, 3, 4] [0, 0]).1 (by decide),
   ((send_command_bounds_check Nat _ CMD_POLL
      (List.replicate MESSAGE_MAX_LENGTH 0)).2 (by decide)).2⟩

/-- C1 counterexample: a transaction whose duplex transfer fails returns
with the select line still asserted low — the pin trace of `send_command`
on the error path is `[low]`, with no closing `high` event, because the `?`
on `self.dev.transfer(result)` returns before `set_high` runs. -/
theorem send_command_error_path_trace :
    sendCommand (fun _ => (Except.error 3 : Except Nat (List Nat)))
        CMD_POLL (List.replicate MESSAGE_MAX_LENGTH 0)
      = ([PinEvent.low], SpiOutcome.err 3) := by
  decide

/-- C1 amended: for every transaction issued through `send_command` whose
command fits the buffer, the select line is set low immediately before the
duplex transfer and set high again after a successful transfer (and the
line is high immediately after `new()`); but when the transfer returns an
error, `send_command` returns with the select line still asserted low. -/
theorem send_command_select_discipline (ε : Type)
    (transfer : List Nat → Except ε (List Nat)) (command result : List Nat)
    (h : command.length ≤ result.length) :
    (∀ received, transfer (flip (command ++ result.drop command.length)) = Except.ok received →
      (sendCommand transfer command result).1 = [PinEvent.low, PinEvent.high]) ∧
    (∀ e, transfer (flip (command ++ result.drop command.length)) = Except.error e →
      (sendCommand transfer command result).1 = [PinEvent.low]) ∧
    new_select_trace = [PinEvent.high] := by
  refine ⟨?_, ?_, rfl⟩ <;> intro x hx <;>
    · unfold sendCommand copyFromSlice
      rw [if_pos h]
      simp [hx]

/-- Witness for C1 at a concrete successful transaction. -/
theorem send_command_select_discipline_witness :
    (sendCommand (fun _ => (Except.ok [1, 2, 3] : Except Nat (List Nat)))
        CMD_POLL (List.replicate MESSAGE_MAX_LENGTH 0)).1
      = [PinEvent.low, PinEvent.high] :=
  (send_command_select_discipline Nat _ CMD_POLL
      (List.replicate MESSAGE_MAX_LENGTH 0) (by decide)).1 [1, 2, 3] rfl

/-- C2: `read_input` copies the whole 32-byte response — header included —
into the scratch array the `ControllerData` union overlays, so the typed
payload it returns reinterprets the response from byte index 0, not byte
index 3: on the poll response
`[0x00, 0x73, 0x5a, 0xfe, 0x7f, 0x10, 0x20, 0x30, 0x40, 0, ...]` the
returned `DualShock` has button field `0x7300` (response bytes 0-1, the tag
byte landing in the high half) and `rx = 0x5a` (the acknowledge byte),
whereas reinterpreting from byte index 3 would give button field
`0xfe ||| 0x7f <<< 8 = 0x7ffe` and `rx` equal to response byte 5. -/
theorem read_input_union_offset_bug :
    read_input (fun _ => (Except.ok (flip
        ([0x00, 0x73, 0x5a, 0xfe, 0x7f, 0x10, 0x20, 0x30, 0x40]
          ++ List.replicate 23 0)) : Except Nat (List Nat)))
      = SpiOutcome.ok (Device.DualShock ⟨⟨0x7300⟩, 0x5a, 0xfe, 0x7f, 0x10⟩) ∧
    (ControllerData.ds ([0x00, 0x73, 0x5a, 0xfe, 0x7f, 0x10, 0x20, 0x30, 0x40]
        ++ List.replicate 23 0)).buttons.data ≠ 0xfe ||| 0x7f <<< 8 := by
  constructor
  · decide
  · decide

/-- C3: for a poll response whose tag byte (index 1) is not `0xff`, a wrong
byte at index 2 makes `read_input` fail with `BadResponse` whatever the tag
is; tag `0xff` succeeds with `Device.None` without any acknowledge check;
and a failing transfer surfaces as `Error::Spi` before classification. -/
theorem read_input_ack_validation (ε : Type) (e : ε) (r : List Nat)
    (hr : ∀ b ∈ r, b < 256) :
    (byteAt r 1 ≠ CONTROLLER_NOT_PRESENT → byteAt r 2 ≠ ACK_BYTE →
      read_input (fun _ => (Except.ok (flip r) : Except Nat (List Nat)))
        = SpiOutcome.err Error.BadResponse) ∧
    (byteAt r 1 = CONTROLLER_NOT_PRESENT →
      read_input (fun _ => (Except.ok (flip r) : Except Nat (List Nat)))
        = SpiOutcome.ok Device.None) ∧
    read_input (fun _ => (Except.error e : Except ε (List Nat)))
      = SpiOutcome.err (Error.Spi e) := by
  refine ⟨?_, ?_, ?_⟩
  · intro hd hack
    rw [read_input_classified r hr hd, if_pos hack]
  · intro hd
    rw [read_input_const_ok r hr]
    have hcl : classifyTag (byteAt r 1) r = Device.None := by
      unfold classifyTag
      rw [if_pos hd]
    rw [hcl]
  · unfold read_input
    rw [sendCommand_const_err e CMD_POLL _ (by decide)]

/-- Witness for C3: a classic-tagged frame with a bad acknowledge byte is
rejected, an absent-tagged frame yields `Device.None`, and transfer error 7
surfaces as `Error.Spi 7`. -/
theorem read_input_ack_validation_witness :
    read_input (fun _ => (Except.ok (flip [0x00, 0x41, 0x00]) : Except Nat (List Nat)))
      = SpiOutcome.err Error.BadResponse ∧
    read_input (fun _ => (Except.ok (flip [0x00, 0xff, 0x00]) : Except Nat (List Nat)))
      = SpiOutcome.ok Device.None ∧
    read_input (fun _ => (Except.error 7 : Except Nat (List Nat)))
      = SpiOutcome.err (Error.Spi 7) :=
  ⟨(read_input_ack_validation Nat 7 [0x00, 0x41, 0x00] (by decide)).1
      (by decide) (by decide),
   (read_input_ack_validation Nat 7 [0x00, 0xff, 0x00] (by decide)).2.1 (by decide),
   (read_input_ack_validation Nat 7 [] (by decide)).2.2⟩

/-- C4: on a successful poll transaction with a good acknowledge byte,
`read_input` picks the `Device` variant from response byte index 1 exactly
per the tag table — `0xff ↦ None`, `0xf3 ↦ ConfigurationMode`,
`0xc1, 0x41 ↦ Classic`, `0x73 ↦ DualShock`, `0x79 ↦ DualShock2` — and any
other tag value yields `Unknown` rather than an error. -/
theorem read_input_classification (r : List Nat) (hr : ∀ b ∈ r, b < 256)
    (hack : byteAt r 2 = ACK_BYTE) :
    (byteAt r 1 = 0xff →
      read_input (fun _ => (Except.ok (flip r) : Except Nat (List Nat)))
        = SpiOutcome.ok Device.None) ∧
    (byteAt r 1 = 0xf3 →
      read_input (fun _ => (Except.ok (flip r) : Except Nat (List Nat)))
        = SpiOutcome.ok Device.ConfigurationMode) ∧
    (byteAt r 1 = 0xc1 →
      read_input (fun _ => (Except.ok (flip r) : Except Nat (List Nat)))
        = SpiOutcome.ok (Device.Classic (ControllerData.classic r))) ∧
    (byteAt r 1 = 0x41 →
      read_input (fun _ => (Except.ok (flip r) : Except Nat (List Nat)))
        = SpiOutcome.ok (Device.Classic (ControllerData.classic r))) ∧
    (byteAt r 1 = 0x73 →
      read_input (fun _ => (Except.ok (flip r) : Except Nat (List Nat)))
        = SpiOutcome.ok (Device.DualShock (ControllerData.ds r))) ∧
    (byteAt r 1 = 0x79 →
      read_input (fun _ => (Except.ok (flip r) : Except Nat (List Nat)))
        = SpiOutcome.ok (Device.DualShock2 (ControllerData.ds2 r))) ∧
    (byteAt r 1 ∉ [0xff, 0xf3, 0xc1, 0x41, 0x73, 0x79] →
      read_input (fun _ => (Except.ok (flip r) : Except Nat (List Nat)))
        = SpiOutcome.ok Device.Unknown) := by
  refine ⟨?_, ?_, ?_, ?_, ?_, ?_, ?_⟩ <;> intro ht
  · rw [read_input_const_ok r hr]
    have hcl : classifyTag (byteAt r 1) r = Device.None := by
      simp [classifyTag, CONTROLLER_NOT_PRESENT, ht]
    rw [hcl]
  · rw [read_input_acked r hr (by rw [ht]; decide) hack, ht]
    rfl
  · rw [read_input_acked r hr (by rw [ht]; decide) hack, ht]
    rfl
  · rw [read_input_acked r hr (by rw [ht]; decide) hack, ht]
    rfl
  · rw [read_input_acked r hr (by rw [ht]; decide) hack, ht]
    rfl
  · rw [read_input_acked r hr (by rw [ht]; decide) hack, ht]
    rfl
  · have hne : byteAt r 1 ≠ CONTROLLER_NOT_PRESENT := by
      intro hh
      exact ht (by rw [hh]; decide)
    rw [read_input_acked r hr hne hack]
    simp only [List.mem_cons, List.not_mem_nil, or_false] at ht
    push_neg at ht
    obtain ⟨h1, h2, h3, h4, h5, h6⟩ := ht
    unfold classifyTag CONTROLLER_NOT_PRESENT CONTROLLER_CONFIGURATION
      CONTROLLER_CLASSIC CONTROLLER_DUALSHOCK_DIGITAL
      CONTROLLER_DUALSHOCK_ANALOG CONTROLLER_DUALSHOCK_PRESSURE
    rw [if_neg h1, if_neg h2, if_neg h3, if_neg h4, if_neg h5, if_neg h6]

/-- Witness for C4: a pressure-tagged frame with a good acknowledge byte
classifies as `DualShock2` with its payload view, and tag `0x42` yields
`Unknown`. -/
theorem read_input_classification_witness :
    read_input (fun _ => (Except.ok (flip
        ([0x00, 0x79, 0x5a, 0xfe, 0x7f, 1, 2, 3, 4, 5, 6, 7, 8, 9, 10, 11]))
        : Except Nat (List Nat)))
      = SpiOutcome.ok (Device.DualShock2 (ControllerData.ds2
          [0x00, 0x79, 0x5a, 0xfe, 0x7f, 1, 2, 3, 4, 5, 6, 7, 8, 9, 10, 11])) ∧
    read_input (fun _ => (Except.ok (flip [0x00, 0x42, 0x5a]) : Except Nat (List Nat)))
      = SpiOutcome.ok Device.Unknown :=
  ⟨(read_input_classification
      [0x00, 0x79, 0x5a, 0xfe, 0x7f, 1, 2, 3, 4, 5, 6, 7, 8, 9, 10, 11]
      (by decide) (by decide)).2.2.2.2.2.1 (by decide),
   (read_input_classification [0x00, 0x42, 0x5a]
      (by decide) (by decide)).2.2.2.2.2.2 (by decide)⟩

/-- `read_config` against a bus whose i-th transfer answers `flip (resp i)`:
the full command trace and the assembled configuration. -/
lemma read_config_const_ok {ε : Type} (resp : Nat → List Nat)
    (hlen : ∀ i, (resp i).length = MESSAGE_MAX_LENGTH)
    (hb : ∀ i, ∀ b ∈ resp i, b < 256) :
    read_config (fun i _ => (Except.ok (flip (resp i)) : Except ε (List Nat)))
      = ([CMD_ENTER_ESCAPE_MODE, CMD_READ_STATUS, CMD_READ_CONST1A,
          CMD_READ_CONST1B, CMD_READ_CONST2, CMD_READ_CONST3A,
          CMD_READ_CONST3B, CMD_EXIT_ESCAPE_MODE],
         SpiOutcome.ok
           { status := ((resp 1).drop HEADER_LEN).take 6,
             const1a := ((resp 2).drop 4).take 5,
             const1b := ((resp 3).drop 4).take 5,
             const2 := ((resp 4).drop 4).take 5,
             const3a := ((resp 5).drop 4).take 5,
             const3b := ((resp 6).drop 4).take 5 }) := by
  have e0 := sendCommand_const_ok (ε := ε) (resp 0) (hb 0) CMD_ENTER_ESCAPE_MODE
      (List.replicate MESSAGE_MAX_LENGTH 0) (by decide)
  have e1 := sendCommand_const_ok (ε := ε) (resp 1) (hb 1) CMD_READ_STATUS (resp 0)
      (by rw [hlen 0]; decide)
  have e2 := sendCommand_const_ok (ε := ε) (resp 2) (hb 2) CMD_READ_CONST1A (resp 1)
      (by rw [hlen 1]; decide)
  have e3 := sendCommand_const_ok (ε := ε) (resp 3) (hb 3) CMD_READ_CONST1B (resp 2)
      (by rw [hlen 2]; decide)
  have e4 := sendCommand_const_ok (ε := ε) (resp 4) (hb 4) CMD_READ_CONST2 (resp 3)
      (by rw [hlen 3]; decide)
  have e5 := sendCommand_const_ok (ε := ε) (resp 5) (hb 5) CMD_READ_CONST3A (resp 4)
      (by rw [hlen 4]; decide)
  have e6 := sendCommand_const_ok (ε := ε) (resp 6) (hb 6) CMD_READ_CONST3B (resp 5)
      (by rw [hlen 5]; decide)
  have e7 := sendCommand_const_ok (ε := ε) (resp 7) (hb 7) CMD_EXIT_ESCAPE_MODE (resp 6)
      (by rw [hlen 6]; decide)
  simp only [read_config, ControllerConfiguration.default, e0, e1, e2, e3, e4, e5, e6, e7]

/-- C5: when every transaction succeeds, `read_config` returns a
configuration whose `status` field is bytes 3 through 8 of the read-status
response (6 bytes) and whose five constant fields are bytes 4 through 8 of
their respective read-constant responses (5 bytes each). -/
theorem read_config_capture_offsets (ε : Type) (resp : Nat → List Nat)
    (hlen : ∀ i, (resp i).length = MESSAGE_MAX_LENGTH)
    (hb : ∀ i, ∀ b ∈ resp i, b < 256) :
    (read_config (fun i _ => (Except.ok (flip (resp i)) : Except ε (List Nat)))).2
      = SpiOutcome.ok
          { status := ((resp 1).drop 3).take 6,
            const1a := ((resp 2).drop 4).take 5,
            const1b := ((resp 3).drop 4).take 5,
            const2 := ((resp 4).drop 4).take 5,
            const3a := ((resp 5).drop 4).take 5,
            const3b := ((resp 6).drop 4).take 5 } ∧
    (((resp 1).drop 3).take 6).length = 6 ∧
    (((resp 2).drop 4).take 5).length = 5 ∧
    (((resp 3).drop 4).take 5).length = 5 ∧
    (((resp 4).drop 4).take 5).length = 5 ∧
    (((resp 5).drop 4).take 5).length = 5 ∧
    (((resp 6).drop 4).take 5).length = 5 := by
  refine ⟨?_, ?_, ?_, ?_, ?_, ?_, ?_⟩
  · rw [read_config_const_ok resp hlen hb]
    rfl
  all_goals simp [List.length_take, List.length_drop, hlen, MESSAGE_MAX_LENGTH]

/-- Witness for C5 with constant all-7 responses. -/
theorem read_config_capture_offsets_witness :
    (read_config (fun _ _ =>
        (Except.ok (flip (List.replicate 32 7)) : Except Nat (List Nat)))).2
      = SpiOutcome.ok
          { status := ((List.replicate 32 7).drop 3).take 6,
            const1a := ((List.replicate 32 7).drop 4).take 5,
            const1b := ((List.replicate 32 7).drop 4).take 5,
            const2 := ((List.replicate 32 7).drop 4).take 5,
            const3a := ((List.replicate 32 7).drop 4).take 5,
            const3b := ((List.replicate 32 7).drop 4).take 5 } :=
  (read_config_capture_offsets Nat (fun _ => List.replicate 32 7)
    (fun _ => rfl)
    (fun i b hbm => by rw [List.eq_of_mem_replicate hbm]; decide)).1

/-- C6: a complete run of `read_config` issues exactly eight transactions,
enter-escape-mode first and exit-escape-mode last with the six reads in
between, in the fixed order, for arbitrary response contents (the sequencer
never inspects any tag byte). -/
theorem read_config_command_sequence (ε : Type) (resp : Nat → List Nat)
    (hlen : ∀ i, (resp i).length = MESSAGE_MAX_LENGTH)
    (hb : ∀ i, ∀ b ∈ resp i, b < 256) :
    (read_config (fun i _ => (Except.ok (flip (resp i)) : Except ε (List Nat)))).1
      = [CMD_ENTER_ESCAPE_MODE, CMD_READ_STATUS, CMD_READ_CONST1A,
         CMD_READ_CONST1B, CMD_READ_CONST2, CMD_READ_CONST3A,
         CMD_READ_CONST3B, CMD_EXIT_ESCAPE_MODE] := by
  rw [read_config_const_ok resp hlen hb]

/-- Witness for C6 with constant all-9 responses, whose tag bytes are not
any recognized controller tag. -/
theorem read_config_command_sequence_witness :
    (read_config (fun _ _ =>
        (Except.ok (flip (List.replicate 32 9)) : Except Nat (List Nat)))).1
      = [CMD_ENTER_ESCAPE_MODE, CMD_READ_STATUS, CMD_READ_CONST1A,
         CMD_READ_CONST1B, CMD_READ_CONST2, CMD_READ_CONST3A,
         CMD_READ_CONST3B, CMD_EXIT_ESCAPE_MODE] :=
  read_config_command_sequence Nat (fun _ => List.replicate 32 9)
    (fun _ => rfl)
    (fun i b hbm => by rw [List.eq_of_mem_replicate hbm]; decide)

/-- `enable_pressure` against a bus whose i-th transfer answers
`flip (resp i)`: all six commands are issued in order and the call
succeeds. -/
lemma enable_pressure_const_ok {ε : Type} (resp : Nat → List Nat)
    (hlen : ∀ i, (resp i).length = MESSAGE_MAX_LENGTH)
    (hb : ∀ i, ∀ b ∈ resp i, b < 256) :
    enable_pressure (fun i _ => (Except.ok (flip (resp i)) : Except ε (List Nat)))
      = ([CMD_POLL, CMD_ENTER_ESCAPE_MODE, CMD_SET_MODE, CMD_INIT_PRESSURE,
          CMD_RESPONSE_FORMAT, CMD_EXIT_ESCAPE_MODE], SpiOutcome.ok ()) := by
  have e0 := sendCommand_const_ok (ε := ε) (resp 0) (hb 0) CMD_POLL
      (List.replicate MESSAGE_MAX_LENGTH 0) (by decide)
  have e1 := sendCommand_const_ok (ε := ε) (resp 1) (hb 1) CMD_ENTER_ESCAPE_MODE (resp 0)
      (by rw [hlen 0]; decide)
  have e2 := sendCommand_const_ok (ε := ε) (resp 2) (hb 2) CMD_SET_MODE (resp 1)
      (by rw [hlen 1]; decide)
  have e3 := sendCommand_const_ok (ε := ε) (resp 3) (hb 3) CMD_INIT_PRESSURE (resp 2)
      (by rw [hlen 2]; decide)
  have e4 := sendCommand_const_ok (ε := ε) (resp 4) (hb 4) CMD_RESPONSE_FORMAT (resp 3)
      (by rw [hlen 3]; decide)
  have e5 := sendCommand_const_ok (ε := ε) (resp 5) (hb 5) CMD_EXIT_ESCAPE_MODE (resp 4)
      (by rw [hlen 4]; decide)
  simp only [enable_pressure, e0, e1, e2, e3, e4, e5]

/-- C7: `enable_pressure` issues exactly the six transactions poll,
enter-escape-mode, set-major-mode, initialize-pressure, set-response-format,
exit-escape-mode in that order, validates no response bytes between steps
(the responses are arbitrary), returns `Ok(())` when all six transfers
succeed, and when the k-th transfer is the first to fail it stops after the
k-th command and propagates the bus error unchanged. -/
theorem enable_pressure_sequence (ε : Type) (resp : Nat → List Nat)
    (hlen : ∀ i, (resp i).length = MESSAGE_MAX_LENGTH)
    (hb : ∀ i, ∀ b ∈ resp i, b < 256) (e : ε) (k : Nat) (hk : k < 6) :
    enable_pressure (fun i _ => (Except.ok (flip (resp i)) : Except ε (List Nat)))
      = ([CMD_POLL, CMD_ENTER_ESCAPE_MODE, CMD_SET_MODE, CMD_INIT_PRESSURE,
          CMD_RESPONSE_FORMAT, CMD_EXIT_ESCAPE_MODE], SpiOutcome.ok ()) ∧
    enable_pressure (fun i _ =>
        if i < k then (Except.ok (flip (resp i)) : Except ε (List Nat))
        else Except.error e)
      = ([CMD_POLL, CMD_ENTER_ESCAPE_MODE, CMD_SET_MODE, CMD_INIT_PRESSURE,
          CMD_RESPONSE_FORMAT, CMD_EXIT_ESCAPE_MODE].take (k + 1),
         SpiOutcome.err e) := by
  refine ⟨enable_pressure_const_ok resp hlen hb, ?_⟩
  have e0 := sendCommand_const_ok (ε := ε) (resp 0) (hb 0) CMD_POLL
      (List.replicate MESSAGE_MAX_LENGTH 0) (by decide)
  have e1 := sendCommand_const_ok (ε := ε) (resp 1) (hb 1) CMD_ENTER_ESCAPE_MODE (resp 0)
      (by rw [hlen 0]; decide)
  have e2 := sendCommand_const_ok (ε := ε) (resp 2) (hb 2) CMD_SET_MODE (resp 1)
      (by rw [hlen 1]; decide)
  have e3 := sendCommand_const_ok (ε := ε) (resp 3) (hb 3) CMD_INIT_PRESSURE (resp 2)
      (by rw [hlen 2]; decide)
  have e4 := sendCommand_const_ok (ε := ε) (resp 4) (hb 4) CMD_RESPONSE_FORMAT (resp 3)
      (by rw [hlen 3]; decide)
  have f0 := sendCommand_const_err (ε := ε) e CMD_POLL
      (List.replicate MESSAGE_MAX_LENGTH 0) (by decide)
  have f1 := sendCommand_const_err (ε := ε) e CMD_ENTER_ESCAPE_MODE (resp 0)
      (by rw [hlen 0]; decide)
  have f2 := sendCommand_const_err (ε := ε) e CMD_SET_MODE (resp 1)
      (by rw [hlen 1]; decide)
  have f3 := sendCommand_const_err (ε := ε) e CMD_INIT_PRESSURE (resp 2)
      (by rw [hlen 2]; decide)
  have f4 := sendCommand_const_err (ε := ε) e CMD_RESPONSE_FORMAT (resp 3)
      (by rw [hlen 3]; decide)
  have f5 := sendCommand_const_err (ε := ε) e CMD_EXIT_ESCAPE_MODE (resp 4)
      (by rw [hlen 4]; decide)
  interval_cases k
  · simp [enable_pressure, f0]
  · simp [enable_pressure, e0, f1]
  · simp [enable_pressure, e0, e1, f2]
  · simp [enable_pressure, e0, e1, e2, f3]
  · simp [enable_pressure, e0, e1, e2, e3, f4]
  · simp [enable_pressure, e0, e1, e2, e3, e4, f5]

/-- Witness for C7: with constant all-3 responses every step succeeds; with
the third transfer failing with error 5, only the first three commands are
issued and error 5 is returned. -/
theorem enable_pressure_sequence_witness :
    enable_pressure (fun _ _ =>
        (Except.ok (flip (List.replicate 32 3)) : Except Nat (List Nat)))
      = ([CMD_POLL, CMD_ENTER_ESCAPE_MODE, CMD_SET_MODE, CMD_INIT_PRESSURE,
          CMD_RESPONSE_FORMAT, CMD_EXIT_ESCAPE_MODE], SpiOutcome.ok ()) ∧
    enable_pressure (fun i _ =>
        if i < 2 then (Except.ok (flip (List.replicate 32 3)) : Except Nat (List Nat))
        else Except.error 5)
      = ([CMD_POLL, CMD_ENTER_ESCAPE_MODE, CMD_SET_MODE, CMD_INIT_PRESSURE,
          CMD_RESPONSE_FORMAT, CMD_EXIT_ESCAPE_MODE].take (2 + 1),
         SpiOutcome.err 5) :=
  enable_pressure_sequence Nat (fun _ => List.replicate 32 3)
    (fun _ => rfl)
    (fun i b hbm => by rw [List.eq_of_mem_replicate hbm]; decide)
    5 2 (by decide)

end Pscontroller
